import Mathlib

/-!
# Verification of the Devi Mantras API (`src/main.py`)

A shallow embedding of the active FastAPI application in `main.py`
(the code below the commented-out legacy block, lines 313-696), plus the
legacy `/contact` handlers (lines 263-309) which exist only in the
commented-out section of the file.

MongoDB documents are modelled as association lists from string keys to
BSON values (`Doc`), which faithfully distinguishes a key that is absent
from a key that is present with value `null` — a distinction the Python
code observes both via `"k" in doc` and via `doc.get("k")`.  Store object
ids are modelled as natural numbers rendered as 24-digit lowercase hex
strings (the observable behaviour of `bson.ObjectId`).  Handler bodies are
translated statement by statement; fallible handlers return
`Except HErr _` where `HErr` carries the HTTP status code and detail
string of the raised `HTTPException`.
-/

/-- A BSON value as the Python code observes it: `null` (Python `None`),
a string, or a binary blob (bytes, modelled as a list of byte values). -/
inductive BVal where
  | vnull : BVal
  | vstr (s : String) : BVal
  | vbin (b : List Nat) : BVal
deriving DecidableEq, Repr

open BVal

/-- Python truthiness of a BSON value: `None`, `""` and `b""` are falsy. -/
def BVal.truthy : BVal → Bool
  | vnull => false
  | vstr s => s ≠ ""
  | vbin b => b ≠ []

/-- A MongoDB document: an association list of keys to BSON values.
All documents built by the handlers have pairwise-distinct keys. -/
abbrev Doc := List (String × BVal)

namespace Doc

/-- Embeds `doc.get(k)`: when distinguishing a missing key from `null` is not
needed: the value stored under `k`, if the key is present. -/
def get (d : Doc) (k : String) : Option BVal :=
  (d.find? (fun kv => kv.1 = k)).map (·.2)

/-- Python `k in doc`. -/
def hasKey (d : Doc) (k : String) : Bool :=
  d.any (fun kv => kv.1 = k)

/-- Python `doc.get(k, dflt)`: the default applies only when the key is
missing; a key present with `None` yields `None`. -/
def getD (d : Doc) (k : String) (dflt : BVal) : BVal :=
  match d.get k with
  | some v => v
  | none => dflt

/-- Python truthiness of `doc.get(k)`: false for a missing key, `None`,
empty string and empty bytes. -/
def truthy (d : Doc) (k : String) : Bool :=
  match d.get k with
  | some v => v.truthy
  | none => false

/-- Python `doc[k] = v`: replace the value in place if the key exists,
otherwise append the new key at the end (dict insertion order). -/
def set (d : Doc) (k : String) (v : BVal) : Doc :=
  match d with
  | [] => [(k, v)]
  | kv :: rest => if kv.1 = k then (k, v) :: rest else kv :: set rest k v

/-- Python `doc.update(kvs)` / MongoDB `$set`: set each pair in order. -/
def setMany (d : Doc) (kvs : List (String × BVal)) : Doc :=
  kvs.foldl (fun a kv => a.set kv.1 kv.2) d

/-- Remove the listed keys (MongoDB projection `{k: 0}` / Python `pop`). -/
def dropKeys (d : Doc) (ks : List String) : Doc :=
  match d with
  | [] => []
  | kv :: rest =>
    if ks.contains kv.1 then dropKeys rest ks else kv :: dropKeys rest ks

end Doc

/-- An uploaded multipart file as the handler receives it
(`fastapi.UploadFile`): an optional client-supplied filename, an optional
declared content type, and the byte content. -/
structure UploadFile where
  filename : Option String
  content_type : Option String
  data : List Nat
deriving DecidableEq, Repr

/-- Python `a or b` for an optional string `a` and default `b`:
the default is used when `a` is `None` or empty. -/
def pyOr (a : Option String) (b : String) : String :=
  match a with
  | none => b
  | some s => if s = "" then b else s

/-- Embeds `vstr` on an optional string, `vnull` for `None`. -/
def optStr (o : Option String) : BVal :=
  match o with
  | none => vnull
  | some s => vstr s

/-- Python `str.strip()` whitespace (the ASCII whitespace characters). -/
def pyIsSpace (c : Char) : Bool :=
  c = ' ' || c = '\t' || c = '\n' || c = '\r' || c = '\x0b' || c = '\x0c'

/-- Python `str.strip()`: drop leading and trailing whitespace. -/
def pyStrip (s : String) : String :=
  String.mk (((s.data.dropWhile pyIsSpace).reverse.dropWhile pyIsSpace).reverse)

/-- ASCII upper-casing of one character (Python `str.upper()` on the
ASCII inputs this API deals in). -/
def asciiUpper (c : Char) : Char :=
  if 'a' ≤ c && c ≤ 'z' then Char.ofNat (c.toNat - 32) else c

/-- ASCII lower-casing of one character. -/
def asciiLower (c : Char) : Char :=
  if 'A' ≤ c && c ≤ 'Z' then Char.ofNat (c.toNat + 32) else c

/-- Python `str.upper()` (ASCII). -/
def pyUpper (s : String) : String := String.mk (s.data.map asciiUpper)

/-- Python `str.lower()` (ASCII). -/
def pyLower (s : String) : String := String.mk (s.data.map asciiLower)

/-- An `HTTPException`: status code and detail message. -/
structure HErr where
  status : Nat
  detail : String
deriving DecidableEq, Repr

instance {ε α : Type} [DecidableEq ε] [DecidableEq α] :
    DecidableEq (Except ε α) := fun a b =>
  match a, b with
  | .error e, .error e2 =>
    if h : e = e2 then .isTrue (by rw [h]) else .isFalse (by simp [h])
  | .ok v, .ok v2 =>
    if h : v = v2 then .isTrue (by rw [h]) else .isFalse (by simp [h])
  | .error _, .ok _ => .isFalse (by simp)
  | .ok _, .error _ => .isFalse (by simp)

/-! ## Object ids (`bson.ObjectId`)

A well-formed id string is exactly 24 hexadecimal characters;
`str(ObjectId)` renders 24 lowercase hex digits. -/

/-- Hexadecimal digit test. -/
def isHexChar (c : Char) : Bool :=
  c.isDigit || ('a' ≤ c && c ≤ 'f') || ('A' ≤ c && c ≤ 'F')

/-- Embeds `ObjectId(s)` succeeds on a string iff it is 24 hex characters. -/
def isValidOid (s : String) : Bool :=
  s.length = 24 && s.toList.all isHexChar

/-- Numeric value of one hex digit. -/
def hexVal (c : Char) : Nat :=
  if c.isDigit then c.toNat - '0'.toNat
  else if 'a' ≤ c && c ≤ 'f' then c.toNat - 'a'.toNat + 10
  else c.toNat - 'A'.toNat + 10

/-- Numeric value of a hex string (big-endian). -/
def hexToNat (s : String) : Nat :=
  s.toList.foldl (fun a c => a * 16 + hexVal c) 0

/-- Embeds `ensure_oid` without the exception: parse a caller-supplied id string,
`none` when `ObjectId(oid_str)` would raise. -/
def parseOid (s : String) : Option Nat :=
  if isValidOid s then some (hexToNat s) else none

/-- Embeds `str(ObjectId)`: the 24-digit lowercase hex rendering of an id. -/
def oidStr (n : Nat) : String :=
  let ds := Nat.toDigits 16 (n % 16 ^ 24)
  String.mk (List.replicate (24 - ds.length) '0' ++ ds)

/-! ## Helpers from `main.py` -/

/-- Embeds `ALLOWED_CATEGORIES` (main.py line 358). -/
def ALLOWED_CATEGORIES : List String :=
  ["LALITA DEVI", "TITHINITYA DEVI", "BALA TRIPURA SUNDARI",
   "KALI", "LAKSHMI", "SARASWATHI"]

/-- Embeds `normalize_category` (main.py line 367): reject empty input, trim and
upper-case, reject anything outside `ALLOWED_CATEGORIES`. -/
def normalize_category (cat : String) : Except HErr String :=
  if cat = "" then
    .error ⟨400, "Category is required"⟩
  else
    let c := pyUpper (pyStrip cat)
    if ALLOWED_CATEGORIES.contains c then
      .ok c
    else
      .error ⟨400, "Invalid category. Allowed: " ++
        String.intercalate ", " ALLOWED_CATEGORIES⟩

/-- The extension of a filename: the characters after the last dot,
where leading dots of the name do not count (the rule of
`os.path.splitext`); `none` when there is no extension. -/
def extChars (cs : List Char) : Option (List Char) :=
  (cs.dropWhile (fun c => c = '.')).foldl
    (fun acc c => if c = '.' then some [] else acc.map (fun l => l ++ [c]))
    none

/-- Models Python's `mimetypes.guess_type` lookup for the filename
extensions used in this development: the extension, lower-cased, looked
up in the standard type table. -/
def mimetypes_guess_type (filename : String) : Option String :=
  match extChars filename.data with
  | none => none
  | some ext =>
    match String.mk (ext.map asciiLower) with
    | "jpg" => some "image/jpeg"
    | "jpeg" => some "image/jpeg"
    | "png" => some "image/png"
    | "gif" => some "image/gif"
    | "pdf" => some "application/pdf"
    | "txt" => some "text/plain"
    | "mp3" => some "audio/mpeg"
    | "wav" => some "audio/x-wav"
    | _ => none

/-- Embeds `guess_mime` (main.py line 375): the guessed type from the filename
extension, or the default when the filename is missing/empty or the
extension is unknown. -/
def guess_mime (filename : Option String) (dflt : String) : String :=
  match filename with
  | none => dflt
  | some f =>
    if f = "" then dflt
    else
      match mimetypes_guess_type f with
      | some mt => mt
      | none => dflt

/-- Embeds `safe_pop_media` (main.py line 387): drop the three binary keys. -/
def safe_pop_media (d : Doc) : Doc :=
  d.dropKeys ["image", "pdf", "audio"]

/-- Embeds `attach_file_urls` (main.py line 392): stringify the id, then add a
`*_url` key for each slot whose `*_filename` KEY is present in the
document (a presence test, not a truthiness test). -/
def attach_file_urls (oid : Nat) (d : Doc) : Doc :=
  let d1 := d.set "_id" (vstr (oidStr oid))
  let d2 := if d1.hasKey "image_filename" then
      d1.set "image_url" (vstr ("/mantras/" ++ oidStr oid ++ "/image"))
    else d1
  let d3 := if d2.hasKey "pdf_filename" then
      d2.set "pdf_url" (vstr ("/mantras/" ++ oidStr oid ++ "/pdf"))
    else d2
  if d3.hasKey "audio_filename" then
    d3.set "audio_url" (vstr ("/mantras/" ++ oidStr oid ++ "/audio"))
  else d3

/-! ## The store

The two media collections plus the id counter.  `ObjectId`s generated by
successive inserts are strictly increasing, which the model captures by
assigning `nextId` and incrementing it. -/

/-- The persistent store: the `mantras` and `events` collections (lists of
id/document pairs) and the next id to be assigned. -/
structure Store where
  mantras : List (Nat × Doc)
  events : List (Nat × Doc)
  nextId : Nat
deriving DecidableEq, Repr

/-- Embeds `find_one({"_id": oid})` on the mantras collection. -/
def findMantra (s : Store) (oid : Nat) : Option Doc :=
  (s.mantras.find? (fun p => p.1 = oid)).map (·.2)

/-- Embeds `find_one({"_id": oid})` on the events collection. -/
def findEvent (s : Store) (oid : Nat) : Option Doc :=
  (s.events.find? (fun p => p.1 = oid)).map (·.2)

/-- Id assignment is monotone: every stored id is below `nextId`. -/
def Store.wf (s : Store) : Prop :=
  (∀ p ∈ s.mantras, p.1 < s.nextId) ∧ (∀ p ∈ s.events, p.1 < s.nextId)

/-- Insertion sort step for descending order on the id component
(`.sort([("_id", -1)])`). -/
def insertDescBy (x : Nat × Doc) : List (Nat × Doc) → List (Nat × Doc)
  | [] => [x]
  | y :: ys => if y.1 ≤ x.1 then x :: y :: ys else y :: insertDescBy x ys

/-- Embeds `.sort([("_id", -1)])`: the collection sorted by descending id. -/
def sortDesc : List (Nat × Doc) → List (Nat × Doc)
  | [] => []
  | x :: xs => insertDescBy x (sortDesc xs)

/-! ## Mantra handlers (main.py lines 433-558) -/

/-- The multipart form of `POST /mantras/upload`. -/
structure UploadForm where
  mantra_name : String
  language : String
  description : String
  category : String
  image : UploadFile
  pdf : UploadFile
  audio : Option UploadFile
deriving DecidableEq, Repr

/-- The document inserted by `upload_mantra` for a given form (main.py
lines 448-462), after the category has been normalized to `norm_cat`. -/
def mantraDoc (f : UploadForm) (norm_cat : String) : Doc :=
  let audio_data : Option (List Nat) := f.audio.map (·.data)
  [("name", vstr (pyStrip f.mantra_name)),
   ("language", vstr (pyStrip f.language)),
   ("description", vstr (pyStrip f.description)),
   ("category", vstr norm_cat),
   ("image", vbin f.image.data),
   ("image_filename", optStr f.image.filename),
   ("image_content_type",
     vstr (pyOr f.image.content_type (guess_mime f.image.filename "image/jpeg"))),
   ("pdf", vbin f.pdf.data),
   ("pdf_filename", optStr f.pdf.filename),
   ("pdf_content_type", vstr (pyOr f.pdf.content_type "application/pdf")),
   ("audio",
     match audio_data with
     | some b => if b ≠ [] then vbin b else vnull
     | none => vnull),
   ("audio_filename",
     match f.audio with
     | some a => optStr a.filename
     | none => vnull),
   ("audio_content_type",
     match f.audio with
     | some a => optStr a.content_type
     | none => vnull)]

/-- Embeds `upload_mantra` (main.py line 433): validate the category, build the
document, insert it; on success return the new store and the id of the
inserted record. -/
def upload_mantra (s : Store) (f : UploadForm) : Except HErr (Store × Nat) :=
  match normalize_category f.category with
  | .error e => .error e
  | .ok norm_cat =>
    .ok ({ s with
            mantras := s.mantras ++ [(s.nextId, mantraDoc f norm_cat)],
            nextId := s.nextId + 1 },
         s.nextId)

/-- Embeds `list_mantras` (main.py line 466): all mantras, binary keys projected
out, sorted by descending id, with derived urls attached. -/
def list_mantras (s : Store) : List Doc :=
  (sortDesc s.mantras).map (fun p => attach_file_urls p.1 (safe_pop_media p.2))

/-- Embeds `get_mantra` (main.py line 472): parse the id (400 on a malformed id),
find the record (404 when absent), strip binaries and attach urls. -/
def get_mantra (s : Store) (mantra_id : String) : Except HErr Doc :=
  match parseOid mantra_id with
  | none => .error ⟨400, "Invalid ID"⟩
  | some oid =>
    match findMantra s oid with
    | none => .error ⟨404, "Mantra not found"⟩
    | some d => .ok (attach_file_urls oid (safe_pop_media d))

/-- The bytes of a binary BSON value (the handlers only reach this on
values stored as `Binary`). -/
def binBytes : BVal → List Nat
  | vbin b => b
  | _ => []

/-- Embeds `get_mantra_image` (main.py line 480): 400 on a malformed id, 404 when
the record is missing or `doc.get("image")` is falsy, otherwise the stored
bytes with media type `doc.get("image_content_type", "image/jpeg")`. -/
def get_mantra_image (s : Store) (mantra_id : String) :
    Except HErr (List Nat × BVal) :=
  match parseOid mantra_id with
  | none => .error ⟨400, "Invalid ID"⟩
  | some oid =>
    match findMantra s oid with
    | none => .error ⟨404, "Image not found"⟩
    | some d =>
      if d.truthy "image" then
        .ok (binBytes (d.getD "image" vnull), d.getD "image_content_type" (vstr "image/jpeg"))
      else .error ⟨404, "Image not found"⟩

/-- Embeds `get_mantra_pdf` (main.py line 488): as for the image slot, with the
`application/pdf` fallback media type. -/
def get_mantra_pdf (s : Store) (mantra_id : String) :
    Except HErr (List Nat × BVal) :=
  match parseOid mantra_id with
  | none => .error ⟨400, "Invalid ID"⟩
  | some oid =>
    match findMantra s oid with
    | none => .error ⟨404, "PDF not found"⟩
    | some d =>
      if d.truthy "pdf" then
        .ok (binBytes (d.getD "pdf" vnull), d.getD "pdf_content_type" (vstr "application/pdf"))
      else .error ⟨404, "PDF not found"⟩

/-- Embeds `get_mantra_audio` (main.py line 496): as for the image slot, with the
`audio/mpeg` fallback media type. -/
def get_mantra_audio (s : Store) (mantra_id : String) :
    Except HErr (List Nat × BVal) :=
  match parseOid mantra_id with
  | none => .error ⟨400, "Invalid ID"⟩
  | some oid =>
    match findMantra s oid with
    | none => .error ⟨404, "Audio not found"⟩
    | some d =>
      if d.truthy "audio" then
        .ok (binBytes (d.getD "audio" vnull), d.getD "audio_content_type" (vstr "audio/mpeg"))
      else .error ⟨404, "Audio not found"⟩

/-- The multipart form of `PUT /mantras/{id}`: metadata required, all
three attachments optional. -/
structure EditForm where
  mantra_name : String
  language : String
  description : String
  category : String
  image : Option UploadFile
  pdf : Option UploadFile
  audio : Option UploadFile
deriving DecidableEq, Repr

/-- The `$set` payload of `edit_mantra` (main.py lines 516-543): the four
metadata fields always, each attachment slot only when a replacement file
was supplied.  Note the content-type defaults here skip the extension
guess. -/
def editFields (f : EditForm) (norm_cat : String) : List (String × BVal) :=
  [("name", vstr (pyStrip f.mantra_name)),
   ("language", vstr (pyStrip f.language)),
   ("description", vstr (pyStrip f.description)),
   ("category", vstr norm_cat)]
  ++ (match f.image with
      | some img =>
        [("image", vbin img.data),
         ("image_filename", optStr img.filename),
         ("image_content_type", vstr (pyOr img.content_type "image/jpeg"))]
      | none => [])
  ++ (match f.pdf with
      | some p =>
        [("pdf", vbin p.data),
         ("pdf_filename", optStr p.filename),
         ("pdf_content_type", vstr (pyOr p.content_type "application/pdf"))]
      | none => [])
  ++ (match f.audio with
      | some a =>
        [("audio", vbin a.data),
         ("audio_filename", optStr a.filename),
         ("audio_content_type", vstr (pyOr a.content_type "audio/mpeg"))]
      | none => [])

/-- Embeds `edit_mantra` (main.py line 504): parse the id, validate the category,
apply `$set` of `editFields` through `find_one_and_update` (404 when the
record is absent); on success return the new store and the response
document. -/
def edit_mantra (s : Store) (mantra_id : String) (f : EditForm) :
    Except HErr (Store × Doc) :=
  match parseOid mantra_id with
  | none => .error ⟨400, "Invalid ID"⟩
  | some oid =>
    match normalize_category f.category with
    | .error e => .error e
    | .ok norm_cat =>
      match findMantra s oid with
      | none => .error ⟨404, "Mantra not found"⟩
      | some d =>
        let d2 := d.setMany (editFields f norm_cat)
        .ok ({ s with
                mantras := s.mantras.map
                  (fun p => if p.1 = oid then (oid, d2) else p) },
             attach_file_urls oid (safe_pop_media d2))

/-- Embeds `delete_mantra` (main.py line 552): parse the id, delete the record,
404 when the reported delete count is zero. -/
def delete_mantra (s : Store) (mantra_id : String) : Except HErr Store :=
  match parseOid mantra_id with
  | none => .error ⟨400, "Invalid ID"⟩
  | some oid =>
    match findMantra s oid with
    | none => .error ⟨404, "Mantra not found"⟩
    | some _ =>
      .ok { s with mantras := s.mantras.filter (fun p => p.1 ≠ oid) }

/-! ## Event handlers (main.py lines 564-667) -/

/-- The multipart form of `POST /events`. -/
structure EventForm where
  name : String
  description : String
  image : Option UploadFile
  pdf : Option UploadFile
deriving DecidableEq, Repr

/-- The document inserted by `create_event` (main.py lines 574-589):
name and description always; each attachment's three keys only when the
file was supplied (genuinely absent keys otherwise). -/
def eventDoc (f : EventForm) : Doc :=
  [("name", vstr (pyStrip f.name)), ("description", vstr (pyStrip f.description))]
  ++ (match f.image with
      | some img =>
        [("image", vbin img.data),
         ("image_filename", optStr img.filename),
         ("image_content_type", vstr (pyOr img.content_type "image/jpeg"))]
      | none => [])
  ++ (match f.pdf with
      | some p =>
        [("pdf", vbin p.data),
         ("pdf_filename", optStr p.filename),
         ("pdf_content_type", vstr (pyOr p.content_type "application/pdf"))]
      | none => [])

/-- Embeds `create_event` (main.py line 564): reject a blank name with 400,
otherwise insert the document and return the new store and id. -/
def create_event (s : Store) (f : EventForm) : Except HErr (Store × Nat) :=
  if pyStrip f.name = "" then
    .error ⟨400, "Event name is required"⟩
  else
    .ok ({ s with
            events := s.events ++ [(s.nextId, eventDoc f)],
            nextId := s.nextId + 1 },
         s.nextId)

/-- The per-document view computation of `list_events` (main.py lines
598-603): stringify the id, always set `image_url`/`pdf_url` (null when
the corresponding filename is falsy), and add the synthetic
`"Upcoming Event"` status when description and both filenames are all
falsy.  Applied to the projected document (binaries excluded). -/
def eventView (oid : Nat) (d : Doc) : Doc :=
  let d1 := d.set "_id" (vstr (oidStr oid))
  let d2 := d1.set "image_url"
    (if d1.truthy "image_filename" then
      vstr ("/events/" ++ oidStr oid ++ "/image") else vnull)
  let d3 := d2.set "pdf_url"
    (if d2.truthy "pdf_filename" then
      vstr ("/events/" ++ oidStr oid ++ "/pdf") else vnull)
  if !d3.truthy "description" && !d3.truthy "image_filename"
      && !d3.truthy "pdf_filename" then
    d3.set "status" (vstr "Upcoming Event")
  else d3

/-- Embeds `list_events` (main.py line 594): all events, binary keys projected
out, sorted by descending id, passed through the view computation. -/
def list_events (s : Store) : List Doc :=
  (sortDesc s.events).map (fun p => eventView p.1 (p.2.dropKeys ["image", "pdf"]))

/-- Embeds `delete_event` (main.py line 661). -/
def delete_event (s : Store) (event_id : String) : Except HErr Store :=
  match parseOid event_id with
  | none => .error ⟨400, "Invalid ID"⟩
  | some oid =>
    match findEvent s oid with
    | none => .error ⟨404, "Event not found"⟩
    | some _ =>
      .ok { s with events := s.events.filter (fun p => p.1 ≠ oid) }

/-! ## Contact handlers (main.py lines 263-309)

The `/contact` endpoints exist only in the commented-out legacy block at
the top of `main.py`; the active application registers no contact routes.
They are embedded here from that block, which is the only definition of
the contact behaviour in the repository. -/

/-- Embeds `CONTACT_ID` (main.py line 263). -/
def CONTACT_ID : String := "contact_profile"

/-- Embeds `default_contact` (main.py line 265). -/
def default_contact : Doc :=
  [("_id", vstr CONTACT_ID), ("phone", vstr ""), ("email", vstr ""),
   ("location", vstr ""), ("map_embed", vstr ""), ("hero_image_url", vstr "")]

/-- The form of `POST /contact`; every field defaults to the empty
string. -/
structure ContactForm where
  phone : String
  email : String
  location : String
  map_embed : String
  hero_image_url : String
deriving DecidableEq, Repr

/-- Embeds `get_contact` (main.py line 275): the singleton document, or the
hard-coded default when none is stored. -/
def get_contact (st : Option Doc) : Doc :=
  match st with
  | some d => d
  | none => default_contact

/-- The `$set` payload of `upsert_contact` (main.py lines 290-297): all
five fields, stripped, plus the fixed id — empty strings included. -/
def contactPayload (f : ContactForm) : List (String × BVal) :=
  [("_id", vstr CONTACT_ID),
   ("phone", vstr (pyStrip f.phone)),
   ("email", vstr (pyStrip f.email)),
   ("location", vstr (pyStrip f.location)),
   ("map_embed", vstr (pyStrip f.map_embed)),
   ("hero_image_url", vstr (pyStrip f.hero_image_url))]

/-- Embeds `upsert_contact` (main.py line 280): reject a non-empty email without
`@`, then `$set` the full payload with upsert semantics on the singleton
key. -/
def upsert_contact (st : Option Doc) (f : ContactForm) :
    Except HErr (Option Doc) :=
  if f.email ≠ "" && !f.email.data.contains '@' then
    .error ⟨400, "Invalid email"⟩
  else
    match st with
    | some d => .ok (some (d.setMany (contactPayload f)))
    | none => .ok (some (Doc.setMany [] (contactPayload f)))

/-! ## Spec-side definition for the content-type refinement claim -/

/-- The content-type defaulting chain as the spec words it, for comparison
with the code: the caller-declared type if present (non-empty); else a
guess from the filename extension; else the slot-specific fallback
constant. -/
def specContentTypeChain (declared : Option String) (filename : Option String)
    (fallback : String) : String :=
  pyOr declared (guess_mime filename fallback)

/-! ## Concrete fixtures used by witnesses and counterexamples -/

/-- The empty store. -/
def exStore : Store := ⟨[], [], 0⟩

/-- An image file with a declared content type. -/
def exImage : UploadFile := ⟨some "a.jpg", some "image/jpeg", [10, 11]⟩

/-- A pdf file with no declared content type and a `.txt` filename. -/
def exTxtPdf : UploadFile := ⟨some "notes.txt", none, [12]⟩

/-- A pdf file with a declared content type. -/
def exPdf : UploadFile := ⟨some "b.pdf", some "application/pdf", [13, 14]⟩

/-- An mp3 audio file with no declared content type. -/
def exAudio : UploadFile := ⟨some "song.mp3", none, [15]⟩

/-- Upload form without the optional audio attachment. -/
def formNoAudio : UploadForm :=
  ⟨"Om Sakthi", "Sanskrit", "", "kali", exImage, exPdf, none⟩

/-- Upload form used against the content-type defaulting claim: the pdf
filename has a `.txt` extension and no declared type, and the audio has a
`.mp3` filename and no declared type. -/
def formCtChain : UploadForm :=
  ⟨"Om Sakthi", "Sanskrit", "", "kali", exImage, exTxtPdf, some exAudio⟩

/-- Upload form whose mantra name is whitespace-only. -/
def formBlankName : UploadForm :=
  ⟨" ", "Sanskrit", "", "kali", exImage, exPdf, none⟩

/-- Upload form without audio, for the derived-url counterexample. -/
def formUrls : UploadForm :=
  ⟨"Gayatri", "Sanskrit", "", "lakshmi", exImage, exPdf, none⟩

/-- Event form whose image is supplied with an empty filename. -/
def formEmptyFilenameEvent : EventForm :=
  ⟨"Pooja", "", some ⟨some "", some "image/png", [7]⟩, none⟩

/-- First contact write: a phone and an email. -/
def contactWrite1 : ContactForm := ⟨"9", "x@y.com", "", "", ""⟩

/-- Second contact write: every field blank. -/
def contactWrite2 : ContactForm := ⟨"", "", "", "", ""⟩

/-- Descending order on the id component of a collection listing. -/
def idsSortedDesc (l : List (Nat × Doc)) : Prop :=
  List.Sorted (fun p q : Nat × Doc => q.1 ≤ p.1) l

/-- An optional attachment that, when supplied, carries a non-empty
filename (the situation of every ordinary multipart upload). -/
def namedAttachment (o : Option UploadFile) : Prop :=
  ∀ u, o = some u → ∃ fn, u.filename = some fn ∧ fn ≠ ""

/-- The value attached to the last occurrence of a key in a `$set`
payload (the occurrence that wins when the payload is applied). -/
def lastVal (kvs : List (String × BVal)) (k : String) : Option BVal :=
  (kvs.reverse.find? (fun kv => kv.1 = k)).map (·.2)

/-! ## Lemmas about documents -/

theorem Doc.get_set_self (d : Doc) (k : String) (v : BVal) :
    (d.set k v).get k = some v := by
  induction d with
  | nil => simp [Doc.set, Doc.get, List.find?]
  | cons kv rest ih =>
    by_cases h : kv.1 = k
    · simp [Doc.set, h, Doc.get, List.find?]
    · simpa [Doc.set, h, Doc.get, List.find?] using ih

theorem Doc.get_set_other (d : Doc) (k k' : String) (v : BVal) (h : k' ≠ k) :
    (d.set k v).get k' = d.get k' := by
  induction d with
  | nil => simp [Doc.set, Doc.get, List.find?, Ne.symm h]
  | cons kv rest ih =>
    by_cases hk : kv.1 = k
    · simp [Doc.set, hk, Doc.get, List.find?, Ne.symm h]
    · by_cases hk' : kv.1 = k'
      · simp [Doc.set, hk, Doc.get, List.find?, hk', h]
      · simpa [Doc.set, hk, Doc.get, List.find?, hk'] using ih

theorem Doc.hasKey_iff_get (d : Doc) (k : String) :
    d.hasKey k = true ↔ ∃ v, d.get k = some v := by
  induction d with
  | nil => simp [Doc.hasKey, Doc.get, List.find?]
  | cons kv rest ih =>
    by_cases h : kv.1 = k
    · simp [Doc.hasKey, Doc.get, List.find?, h]
    · simpa [Doc.hasKey, Doc.get, List.find?, h] using ih


theorem Doc.hasKey_set_iff (d : Doc) (k k' : String) (v : BVal) :
    (d.set k v).hasKey k' = true ↔ (k' = k ∨ d.hasKey k' = true) := by
  by_cases h : k' = k
  · subst h
    simp [Doc.hasKey_iff_get, Doc.get_set_self]
  · rw [Doc.hasKey_iff_get, Doc.get_set_other d k k' v h, ← Doc.hasKey_iff_get]
    simp [h]

theorem Doc.truthy_set_other (d : Doc) (k k' : String) (v : BVal)
    (h : k' ≠ k) : (d.set k v).truthy k' = d.truthy k' := by
  simp [Doc.truthy, Doc.get_set_other d k k' v h]

theorem Doc.getD_set_other (d : Doc) (k k' : String) (v w : BVal)
    (h : k' ≠ k) : (d.set k v).getD k' w = d.getD k' w := by
  simp [Doc.getD, Doc.get_set_other d k k' v h]

theorem Doc.get_dropKeys_not_mem (d : Doc) (ks : List String) (k : String)
    (h : ¬ k ∈ ks) : (d.dropKeys ks).get k = d.get k := by
  induction d with
  | nil => simp [Doc.dropKeys, Doc.get]
  | cons kv rest ih =>
    by_cases hk : kv.1 = k
    · have hm : ¬ kv.1 ∈ ks := by rw [hk]; exact h
      simp [Doc.dropKeys, hm, h, Doc.get, List.find?, hk]
    · by_cases hm : kv.1 ∈ ks
      · simpa [Doc.dropKeys, hm, Doc.get, List.find?, hk] using ih
      · simpa [Doc.dropKeys, hm, Doc.get, List.find?, hk] using ih

theorem Doc.truthy_dropKeys_not_mem (d : Doc) (ks : List String) (k : String)
    (h : ¬ k ∈ ks) : (d.dropKeys ks).truthy k = d.truthy k := by
  simp [Doc.truthy, Doc.get_dropKeys_not_mem d ks k h]

theorem Doc.hasKey_dropKeys_not_mem (d : Doc) (ks : List String) (k : String)
    (h : ¬ k ∈ ks) :
    (d.dropKeys ks).hasKey k = d.hasKey k := by
  rw [Bool.eq_iff_iff, Doc.hasKey_iff_get, Doc.hasKey_iff_get,
    Doc.get_dropKeys_not_mem d ks k h]

theorem Doc.get_setMany (d : Doc) (kvs : List (String × BVal)) (k : String) :
    (d.setMany kvs).get k =
      match lastVal kvs k with
      | some v => some v
      | none => d.get k := by
  induction kvs generalizing d with
  | nil => simp [Doc.setMany, lastVal]
  | cons x l ih =>
    have step : Doc.setMany d (x :: l) = Doc.setMany (d.set x.1 x.2) l := rfl
    rw [step, ih]
    have hrev : (x :: l).reverse = l.reverse ++ [x] := by simp
    cases hfind : l.reverse.find? (fun kv => decide (kv.1 = k)) with
    | some kv0 =>
      have h1 : lastVal l k = some kv0.2 := by simp [lastVal, hfind]
      have h2 : lastVal (x :: l) k = some kv0.2 := by
        simp [lastVal, hrev, List.find?_append, hfind]
      rw [h1, h2]
    | none =>
      have h1 : lastVal l k = none := by simp [lastVal, hfind]
      have h2 : lastVal (x :: l) k = if x.1 = k then some x.2 else none := by
        by_cases hxk : x.1 = k
        · simp [lastVal, hrev, List.find?_append, hfind, hxk, List.find?]
        · simp [lastVal, hrev, List.find?_append, hfind, hxk, List.find?]
      rw [h1, h2]
      by_cases hxk : x.1 = k
      · subst hxk
        simp [Doc.get_set_self]
      · have hne : k ≠ x.1 := fun hh => hxk hh.symm
        simp [hxk, Doc.get_set_other d x.1 k x.2 hne]

/-! ## Lemmas about the store and the listing order -/

theorem find_append_new (l : List (Nat × Doc)) (n : Nat) (d : Doc)
    (h : ∀ p ∈ l, p.1 ≠ n) :
    ((l ++ [(n, d)]).find? (fun p => p.1 = n)).map (·.2) = some d := by
  induction l with
  | nil => simp [List.find?]
  | cons p rest ih =>
    have hp : p.1 ≠ n := h p (by simp)
    have hrest : ∀ q ∈ rest, q.1 ≠ n := fun q hq => h q (by simp [hq])
    simpa [List.find?, hp] using ih hrest

theorem find_map_replace (l : List (Nat × Doc)) (oid : Nat) (d2 : Doc)
    (h : ((l.find? (fun p => p.1 = oid))).isSome) :
    (((l.map (fun p => if p.1 = oid then (oid, d2) else p)).find?
      (fun p => p.1 = oid)).map (·.2)) = some d2 := by
  induction l with
  | nil => simp [List.find?] at h
  | cons p rest ih =>
    by_cases hp : p.1 = oid
    · simp [List.find?, hp]
    · have h' : ((rest.find? (fun p => p.1 = oid))).isSome := by
        simpa [List.find?, hp] using h
      simpa [List.find?, hp] using ih h'

theorem find_filter_ne (l : List (Nat × Doc)) (oid : Nat) :
    (l.filter (fun p => p.1 ≠ oid)).find? (fun p => p.1 = oid) = none := by
  rw [List.find?_eq_none]
  intro p hp
  have := List.of_mem_filter hp
  simpa using this

theorem perm_insertDescBy (x : Nat × Doc) (l : List (Nat × Doc)) :
    List.Perm (insertDescBy x l) (x :: l) := by
  induction l with
  | nil => simp [insertDescBy]
  | cons y ys ih =>
    rw [insertDescBy]
    by_cases h : y.1 ≤ x.1
    · simp [h]
    · simp only [h, if_false]
      exact List.Perm.trans (List.Perm.cons y ih) (List.Perm.swap x y ys)

theorem perm_sortDesc (l : List (Nat × Doc)) : List.Perm (sortDesc l) l := by
  induction l with
  | nil => simp [sortDesc]
  | cons x xs ih =>
    exact List.Perm.trans (perm_insertDescBy x (sortDesc xs)) (List.Perm.cons x ih)

theorem mem_sortDesc (p : Nat × Doc) (l : List (Nat × Doc)) :
    p ∈ sortDesc l ↔ p ∈ l :=
  (perm_sortDesc l).mem_iff

theorem sorted_insertDescBy (x : Nat × Doc) (l : List (Nat × Doc))
    (h : idsSortedDesc l) : idsSortedDesc (insertDescBy x l) := by
  induction l with
  | nil => simp [insertDescBy, idsSortedDesc]
  | cons y ys ih =>
    rw [insertDescBy]
    simp only [idsSortedDesc] at h ih ⊢
    by_cases hyx : y.1 ≤ x.1
    · simp only [hyx, if_true]
      rw [List.sorted_cons] at h ⊢
      refine ⟨?_, by rw [List.sorted_cons]; exact h⟩
      intro z hz
      rcases List.mem_cons.mp hz with rfl | hz2
      · exact hyx
      · exact le_trans (h.1 z hz2) hyx
    · simp only [hyx, if_false]
      rw [List.sorted_cons] at h
      rw [List.sorted_cons]
      constructor
      · intro z hz
        rcases List.mem_cons.mp ((perm_insertDescBy x ys).mem_iff.mp hz) with rfl | hz2
        · omega
        · exact h.1 z hz2
      · exact ih h.2

theorem sorted_sortDesc (l : List (Nat × Doc)) : idsSortedDesc (sortDesc l) := by
  induction l with
  | nil => exact List.Pairwise.nil
  | cons x xs ih => exact sorted_insertDescBy x (sortDesc xs) ih

theorem Doc.hasKey_set_ne (d : Doc) (k k' : String) (v : BVal) (h : k' ≠ k) :
    (d.set k v).hasKey k' = d.hasKey k' := by
  rw [Bool.eq_iff_iff, Doc.hasKey_iff_get, Doc.hasKey_iff_get,
    Doc.get_set_other d k k' v h]

theorem Doc.hasKey_set_self (d : Doc) (k : String) (v : BVal) :
    (d.set k v).hasKey k = true := by
  rw [Doc.hasKey_iff_get]
  exact ⟨v, Doc.get_set_self d k v⟩

/-- Characterization of `attach_file_urls` on a document that does not
already carry derived url keys (true of every stored record): each
`*_url` key appears iff the corresponding `*_filename` KEY appears, and
its value is the `/mantras/{id}/{slot}` path. -/
theorem attach_file_urls_spec (oid : Nat) (d : Doc)
    (hiu : d.hasKey "image_url" = false)
    (hpu : d.hasKey "pdf_url" = false)
    (hau : d.hasKey "audio_url" = false) :
    ((attach_file_urls oid d).hasKey "image_url" = d.hasKey "image_filename"
      ∧ (d.hasKey "image_filename" = true →
        (attach_file_urls oid d).get "image_url" =
          some (vstr ("/mantras/" ++ oidStr oid ++ "/image"))))
    ∧ ((attach_file_urls oid d).hasKey "pdf_url" = d.hasKey "pdf_filename"
      ∧ (d.hasKey "pdf_filename" = true →
        (attach_file_urls oid d).get "pdf_url" =
          some (vstr ("/mantras/" ++ oidStr oid ++ "/pdf"))))
    ∧ ((attach_file_urls oid d).hasKey "audio_url" = d.hasKey "audio_filename"
      ∧ (d.hasKey "audio_filename" = true →
        (attach_file_urls oid d).get "audio_url" =
          some (vstr ("/mantras/" ++ oidStr oid ++ "/audio")))) := by
  unfold attach_file_urls
  by_cases h1 : d.hasKey "image_filename" <;>
  by_cases h2 : d.hasKey "pdf_filename" <;>
  by_cases h3 : d.hasKey "audio_filename" <;>
    simp [Doc.hasKey_set_ne, Doc.hasKey_set_self, Doc.get_set_self,
      Doc.get_set_other, h1, h2, h3, hiu, hpu, hau]

theorem Doc.get_eq_none_of_not_hasKey (d : Doc) (k : String)
    (h : d.hasKey k = false) : d.get k = none := by
  cases hg : d.get k with
  | none => rfl
  | some v =>
    have ht : d.hasKey k = true := (Doc.hasKey_iff_get d k).mpr ⟨v, hg⟩
    rw [h] at ht
    exact absurd ht (by simp)

/-- Characterization of the `list_events` view computation on a document
with no stored `status` key: the synthetic `"Upcoming Event"` marker
appears iff description, image filename and pdf filename are all falsy. -/
theorem eventView_status_spec (oid : Nat) (d : Doc)
    (hs : d.hasKey "status" = false) :
    ((eventView oid d).get "status" = some (vstr "Upcoming Event") ↔
      (d.truthy "description" = false ∧ d.truthy "image_filename" = false
        ∧ d.truthy "pdf_filename" = false))
    ∧ ((eventView oid d).hasKey "status" = true ↔
      (d.truthy "description" = false ∧ d.truthy "image_filename" = false
        ∧ d.truthy "pdf_filename" = false)) := by
  unfold eventView
  by_cases h1 : d.truthy "description" <;>
  by_cases h2 : d.truthy "image_filename" <;>
  by_cases h3 : d.truthy "pdf_filename" <;>
    simp [Doc.truthy_set_other, Doc.hasKey_set_ne, Doc.hasKey_set_self,
      Doc.get_set_self, Doc.get_set_other,
      Doc.get_eq_none_of_not_hasKey d "status" hs, h1, h2, h3, hs]

/-! ## Shared endpoint lemmas -/

theorem upload_mantra_inserts (s : Store) (f : UploadForm) (cat : String)
    (hwf : Store.wf s) (hcat : normalize_category f.category = .ok cat) :
    upload_mantra s f =
      .ok ({ s with
              mantras := s.mantras ++ [(s.nextId, mantraDoc f cat)],
              nextId := s.nextId + 1 }, s.nextId)
    ∧ findMantra { s with
        mantras := s.mantras ++ [(s.nextId, mantraDoc f cat)],
        nextId := s.nextId + 1 } s.nextId = some (mantraDoc f cat) := by
  constructor
  · unfold upload_mantra
    rw [hcat]
  · unfold findMantra
    exact find_append_new s.mantras s.nextId (mantraDoc f cat)
      (fun p hp => Nat.ne_of_lt (hwf.1 p hp))

theorem create_event_inserts (s : Store) (f : EventForm)
    (hwf : Store.wf s) (hname : pyStrip f.name ≠ "") :
    create_event s f =
      .ok ({ s with
              events := s.events ++ [(s.nextId, eventDoc f)],
              nextId := s.nextId + 1 }, s.nextId)
    ∧ findEvent { s with
        events := s.events ++ [(s.nextId, eventDoc f)],
        nextId := s.nextId + 1 } s.nextId = some (eventDoc f) := by
  constructor
  · unfold create_event
    simp [hname]
  · unfold findEvent
    exact find_append_new s.events s.nextId (eventDoc f)
      (fun p hp => Nat.ne_of_lt (hwf.2 p hp))

theorem mantraDoc_get_name (f : UploadForm) (cat : String) :
    (mantraDoc f cat).get "name" = some (vstr (pyStrip f.mantra_name)) := by
  simp [mantraDoc, Doc.get, List.find?]

theorem mantraDoc_get_image_ct (f : UploadForm) (cat : String) :
    (mantraDoc f cat).get "image_content_type" =
      some (vstr (pyOr f.image.content_type
        (guess_mime f.image.filename "image/jpeg"))) := by
  simp [mantraDoc, Doc.get, List.find?]

theorem mantraDoc_get_pdf_ct (f : UploadForm) (cat : String) :
    (mantraDoc f cat).get "pdf_content_type" =
      some (vstr (pyOr f.pdf.content_type "application/pdf")) := by
  simp [mantraDoc, Doc.get, List.find?]

theorem mantraDoc_get_audio_ct (f : UploadForm) (cat : String) :
    (mantraDoc f cat).get "audio_content_type" =
      some (match f.audio with
            | some a => optStr a.content_type
            | none => vnull) := by
  simp [mantraDoc, Doc.get, List.find?]

/-! ## Claim theorems -/

/-- C6: category normalization fails with `InvalidInput` (400) on empty
input; otherwise it trims and upper-cases and fails with `InvalidInput`
naming the allowed set when the result is not one of the six categories;
inputs differing only in case/surrounding whitespace normalize alike, and
every input outside the six-member set fails. -/
theorem C6_category_normalization :
    (normalize_category "" = .error ⟨400, "Category is required"⟩)
    ∧ (∀ c : String, c ≠ "" → pyUpper (pyStrip c) ∈ ALLOWED_CATEGORIES →
        normalize_category c = .ok (pyUpper (pyStrip c)))
    ∧ (∀ c : String, c ≠ "" → ¬ pyUpper (pyStrip c) ∈ ALLOWED_CATEGORIES →
        normalize_category c = .error ⟨400, "Invalid category. Allowed: " ++
          String.intercalate ", " ALLOWED_CATEGORIES⟩)
    ∧ (∀ c1 c2 : String, c1 ≠ "" → c2 ≠ "" →
        pyUpper (pyStrip c1) = pyUpper (pyStrip c2) →
        normalize_category c1 = normalize_category c2)
    ∧ (∀ c : String, ¬ pyUpper (pyStrip c) ∈ ALLOWED_CATEGORIES →
        ∃ e : HErr, normalize_category c = .error e ∧ e.status = 400) := by
  refine ⟨by decide, ?_, ?_, ?_, ?_⟩
  · intro c hc hm
    simp [normalize_category, hc, hm]
  · intro c hc hm
    simp [normalize_category, hc, hm]
  · intro c1 c2 h1 h2 he
    simp [normalize_category, h1, h2, he]
  · intro c hm
    by_cases hc : c = ""
    · exact ⟨⟨400, "Category is required"⟩, by simp [normalize_category, hc], rfl⟩
    · exact ⟨⟨400, "Invalid category. Allowed: " ++
        String.intercalate ", " ALLOWED_CATEGORIES⟩,
        by simp [normalize_category, hc, hm], rfl⟩

/-- Witness for C6 at concrete inputs: `"  kali "` normalizes to `KALI`. -/
theorem C6_category_normalization_witness :
    (("  kali " : String) ≠ "" ∧ pyUpper (pyStrip "  kali ") ∈ ALLOWED_CATEGORIES)
    ∧ normalize_category "  kali " = .ok (pyUpper (pyStrip "  kali ")) :=
  ⟨⟨by decide, by decide⟩,
    C6_category_normalization.2.1 "  kali " (by decide) (by decide)⟩

/-- C5 counterexample: in `upload_mantra`, the pdf slot's content type is
`declared or "application/pdf"` with NO filename-extension guess, and the
audio slot stores the declared type as-is (null when undeclared) with
neither guess nor fallback: a pdf named `notes.txt` with no declared type
stores `application/pdf` where the claimed chain yields `text/plain`, and
an `.mp3` audio with no declared type stores null, not `audio/mpeg`. -/
theorem C5_counterexample :
    upload_mantra exStore formCtChain =
      .ok (⟨[(0, mantraDoc formCtChain "KALI")], [], 1⟩, 0)
    ∧ (mantraDoc formCtChain "KALI").get "pdf_content_type" =
        some (vstr "application/pdf")
    ∧ specContentTypeChain formCtChain.pdf.content_type
        formCtChain.pdf.filename "application/pdf" = "text/plain"
    ∧ (mantraDoc formCtChain "KALI").get "pdf_content_type" ≠
        some (vstr (specContentTypeChain formCtChain.pdf.content_type
          formCtChain.pdf.filename "application/pdf"))
    ∧ (mantraDoc formCtChain "KALI").get "audio_content_type" = some vnull
    ∧ specContentTypeChain none (some "song.mp3") "audio/mpeg" = "audio/mpeg"
    ∧ (mantraDoc formCtChain "KALI").get "audio_content_type" ≠
        some (vstr (specContentTypeChain none (some "song.mp3") "audio/mpeg")) := by
  decide

/-- C5 amended: at upload the image content type follows the full chain
(declared type, else extension guess, else `image/jpeg`); the pdf content
type is the declared type or the constant `application/pdf` with no
extension guess; the audio content type is the declared type as supplied
(null when audio is supplied undeclared, null when audio is absent). -/
theorem C5_content_type_defaulting (s : Store) (f : UploadForm) (cat : String)
    (hwf : Store.wf s) (hcat : normalize_category f.category = .ok cat) :
    ∃ s2 : Store, upload_mantra s f = .ok (s2, s.nextId)
      ∧ findMantra s2 s.nextId = some (mantraDoc f cat)
      ∧ (mantraDoc f cat).get "image_content_type" =
          some (vstr (specContentTypeChain f.image.content_type
            f.image.filename "image/jpeg"))
      ∧ (mantraDoc f cat).get "pdf_content_type" =
          some (vstr (pyOr f.pdf.content_type "application/pdf"))
      ∧ (mantraDoc f cat).get "audio_content_type" =
          some (match f.audio with
                | some a => optStr a.content_type
                | none => vnull) := by
  obtain ⟨hup, hfind⟩ := upload_mantra_inserts s f cat hwf hcat
  exact ⟨_, hup, hfind, mantraDoc_get_image_ct f cat,
    mantraDoc_get_pdf_ct f cat, mantraDoc_get_audio_ct f cat⟩

/-- Witness for C5 at a concrete upload. -/
theorem C5_content_type_defaulting_witness :
    (Store.wf exStore ∧ normalize_category formNoAudio.category = .ok "KALI")
    ∧ (∃ s2 : Store, upload_mantra exStore formNoAudio = .ok (s2, exStore.nextId)
      ∧ findMantra s2 exStore.nextId = some (mantraDoc formNoAudio "KALI")
      ∧ (mantraDoc formNoAudio "KALI").get "image_content_type" =
          some (vstr (specContentTypeChain formNoAudio.image.content_type
            formNoAudio.image.filename "image/jpeg"))
      ∧ (mantraDoc formNoAudio "KALI").get "pdf_content_type" =
          some (vstr (pyOr formNoAudio.pdf.content_type "application/pdf"))
      ∧ (mantraDoc formNoAudio "KALI").get "audio_content_type" =
          some (match formNoAudio.audio with
                | some a => optStr a.content_type
                | none => vnull)) :=
  ⟨⟨⟨by simp [exStore], by simp [exStore]⟩, by decide⟩,
    C5_content_type_defaulting exStore formNoAudio "KALI"
      ⟨by simp [exStore], by simp [exStore]⟩ (by decide)⟩

/-- C1 counterexample: a mantra uploaded without audio stores the
`audio`, `audio_filename` and `audio_content_type` KEYS explicitly (with
null values) — the audio slot is not structurally absent. -/
theorem C1_counterexample :
    upload_mantra exStore formNoAudio =
      .ok (⟨[(0, mantraDoc formNoAudio "KALI")], [], 1⟩, 0)
    ∧ formNoAudio.audio = none
    ∧ (mantraDoc formNoAudio "KALI").hasKey "audio" = true
    ∧ (mantraDoc formNoAudio "KALI").hasKey "audio_filename" = true
    ∧ (mantraDoc formNoAudio "KALI").hasKey "audio_content_type" = true
    ∧ (mantraDoc formNoAudio "KALI").get "audio" = some vnull := by
  decide

/-- C1 amended: when audio is not supplied at upload, the stored record's
`audio`, `audio_filename` and `audio_content_type` fields are all present
with explicit null values (keys present, not absent); moreover a supplied
audio file with empty content stores a null binary while its filename is
still recorded, so a dangling filename with no bytes is reachable. -/
theorem C1_absent_audio_nulls (s : Store) (f : UploadForm) (cat : String)
    (hwf : Store.wf s) (hcat : normalize_category f.category = .ok cat) :
    ∃ s2 : Store, upload_mantra s f = .ok (s2, s.nextId)
      ∧ findMantra s2 s.nextId = some (mantraDoc f cat)
      ∧ (f.audio = none →
          (mantraDoc f cat).get "audio" = some vnull
          ∧ (mantraDoc f cat).get "audio_filename" = some vnull
          ∧ (mantraDoc f cat).get "audio_content_type" = some vnull)
      ∧ (∀ a : UploadFile, f.audio = some a → a.data = [] →
          (mantraDoc f cat).get "audio" = some vnull
          ∧ (mantraDoc f cat).get "audio_filename" = some (optStr a.filename)) := by
  obtain ⟨hup, hfind⟩ := upload_mantra_inserts s f cat hwf hcat
  refine ⟨_, hup, hfind, ?_, ?_⟩
  · intro hna
    refine ⟨?_, ?_, ?_⟩ <;> simp [mantraDoc, Doc.get, List.find?, hna]
  · intro a ha hdata
    constructor <;> simp [mantraDoc, Doc.get, List.find?, ha, hdata]

/-- Witness for C1 at a concrete no-audio upload. -/
theorem C1_absent_audio_nulls_witness :
    (Store.wf exStore ∧ normalize_category formNoAudio.category = .ok "KALI")
    ∧ (∃ s2 : Store, upload_mantra exStore formNoAudio = .ok (s2, exStore.nextId)
      ∧ findMantra s2 exStore.nextId = some (mantraDoc formNoAudio "KALI")
      ∧ (formNoAudio.audio = none →
          (mantraDoc formNoAudio "KALI").get "audio" = some vnull
          ∧ (mantraDoc formNoAudio "KALI").get "audio_filename" = some vnull
          ∧ (mantraDoc formNoAudio "KALI").get "audio_content_type" = some vnull)
      ∧ (∀ a : UploadFile, formNoAudio.audio = some a → a.data = [] →
          (mantraDoc formNoAudio "KALI").get "audio" = some vnull
          ∧ (mantraDoc formNoAudio "KALI").get "audio_filename" =
              some (optStr a.filename))) :=
  ⟨⟨⟨by simp [exStore], by simp [exStore]⟩, by decide⟩,
    C1_absent_audio_nulls exStore formNoAudio "KALI"
      ⟨by simp [exStore], by simp [exStore]⟩ (by decide)⟩

/-- C9 counterexample: `upload_mantra` performs no name validation — a
whitespace-only mantra name is accepted and stored as the empty string. -/
theorem C9_counterexample :
    upload_mantra exStore formBlankName =
      .ok (⟨[(0, mantraDoc formBlankName "KALI")], [], 1⟩, 0)
    ∧ pyStrip formBlankName.mantra_name = ""
    ∧ (mantraDoc formBlankName "KALI").get "name" = some (vstr "") := by
  decide

/-- C9 amended: every stored EVENT record has a non-empty name —
`create_event` rejects an empty or whitespace-only name with
`InvalidInput` (400) and stores nothing; `upload_mantra`, in contrast,
stores the stripped name without any emptiness check. -/
theorem C9_event_name_required :
    (∀ (s : Store) (f : EventForm), pyStrip f.name = "" →
      create_event s f = .error ⟨400, "Event name is required"⟩)
    ∧ (∀ (s : Store) (f : EventForm), Store.wf s → pyStrip f.name ≠ "" →
        ∃ s2 : Store, create_event s f = .ok (s2, s.nextId)
          ∧ findEvent s2 s.nextId = some (eventDoc f)
          ∧ (eventDoc f).get "name" = some (vstr (pyStrip f.name))
          ∧ (eventDoc f).get "name" ≠ some (vstr ""))
    ∧ (∀ (s : Store) (f : UploadForm) (cat : String), Store.wf s →
        normalize_category f.category = .ok cat →
        ∃ s2 : Store, upload_mantra s f = .ok (s2, s.nextId)
          ∧ findMantra s2 s.nextId = some (mantraDoc f cat)
          ∧ (mantraDoc f cat).get "name" = some (vstr (pyStrip f.mantra_name))) := by
  refine ⟨?_, ?_, ?_⟩
  · intro s f h
    unfold create_event
    simp [h]
  · intro s f hwf hname
    obtain ⟨hok, hfind⟩ := create_event_inserts s f hwf hname
    refine ⟨_, hok, hfind, ?_, ?_⟩
    · cases f.image <;> cases f.pdf <;> simp [eventDoc, Doc.get, List.find?]
    · cases hi : f.image <;> cases hp : f.pdf <;>
        simp [eventDoc, Doc.get, List.find?, hi, hp, hname]
  · intro s f cat hwf hcat
    obtain ⟨hok, hfind⟩ := upload_mantra_inserts s f cat hwf hcat
    exact ⟨_, hok, hfind, mantraDoc_get_name f cat⟩

/-- Witness for C9 at a concrete event creation and mantra upload. -/
theorem C9_event_name_required_witness :
    (pyStrip "" = "" ∧ Store.wf exStore ∧ pyStrip "Pooja" ≠ "")
    ∧ create_event exStore ⟨"", "", none, none⟩ =
        .error ⟨400, "Event name is required"⟩
    ∧ (∃ s2 : Store, create_event exStore ⟨"Pooja", "", none, none⟩ = .ok (s2, exStore.nextId)
        ∧ findEvent s2 exStore.nextId = some (eventDoc ⟨"Pooja", "", none, none⟩)
        ∧ (eventDoc ⟨"Pooja", "", none, none⟩).get "name" =
            some (vstr (pyStrip "Pooja"))
        ∧ (eventDoc ⟨"Pooja", "", none, none⟩).get "name" ≠ some (vstr "")) :=
  ⟨⟨by decide, ⟨by simp [exStore], by simp [exStore]⟩, by decide⟩,
    C9_event_name_required.1 exStore ⟨"", "", none, none⟩ (by decide),
    C9_event_name_required.2.1 exStore ⟨"Pooja", "", none, none⟩
      ⟨by simp [exStore], by simp [exStore]⟩ (by decide)⟩

/-- C2 counterexample: a mantra uploaded WITHOUT audio, when fetched,
carries an `audio_url` field (the view tests key presence, and upload
always stores the `audio_filename` key, null-valued) — the claim that the
response contains no `audio_url` field is false. -/
theorem C2_counterexample :
    upload_mantra exStore formUrls =
      .ok (⟨[(0, mantraDoc formUrls "LAKSHMI")], [], 1⟩, 0)
    ∧ formUrls.audio = none
    ∧ (get_mantra ⟨[(0, mantraDoc formUrls "LAKSHMI")], [], 1⟩
        (oidStr 0)).toOption.map (fun r => r.get "audio_url") =
      some (some (vstr "/mantras/000000000000000000000000/audio")) := by
  decide

/-- C2 amended: a fetched mantra's `*_url` field is present iff the
corresponding `*_filename` KEY is present in the stored record (whatever
its value, null included), with value exactly `/mantras/{id}/{slot}`;
since upload stores all three filename keys, every uploaded mantra's
response carries all three urls, audio or not.  Every entry of the
listing is likewise the url-attached view of a stored record. -/
theorem C2_derived_urls (s : Store) (mantra_id : String) (oid : Nat) (d : Doc)
    (hid : parseOid mantra_id = some oid)
    (hfind : findMantra s oid = some d)
    (hiu : d.hasKey "image_url" = false)
    (hpu : d.hasKey "pdf_url" = false)
    (hau : d.hasKey "audio_url" = false) :
    ∃ r : Doc, get_mantra s mantra_id = .ok r
      ∧ (r.hasKey "image_url" = d.hasKey "image_filename")
      ∧ (d.hasKey "image_filename" = true →
          r.get "image_url" = some (vstr ("/mantras/" ++ oidStr oid ++ "/image")))
      ∧ (r.hasKey "pdf_url" = d.hasKey "pdf_filename")
      ∧ (d.hasKey "pdf_filename" = true →
          r.get "pdf_url" = some (vstr ("/mantras/" ++ oidStr oid ++ "/pdf")))
      ∧ (r.hasKey "audio_url" = d.hasKey "audio_filename")
      ∧ (d.hasKey "audio_filename" = true →
          r.get "audio_url" = some (vstr ("/mantras/" ++ oidStr oid ++ "/audio")))
      ∧ (∀ (f : UploadForm) (cat : String), d = mantraDoc f cat →
          r.hasKey "image_url" = true ∧ r.hasKey "pdf_url" = true
            ∧ r.hasKey "audio_url" = true)
      ∧ (∀ v : Doc, v ∈ list_mantras s →
          ∃ p : Nat × Doc, p ∈ s.mantras
            ∧ v = attach_file_urls p.1 (safe_pop_media p.2)) := by
  have hok : get_mantra s mantra_id = .ok (attach_file_urls oid (safe_pop_media d)) := by
    simp [get_mantra, hid, hfind]
  have hiu2 : (safe_pop_media d).hasKey "image_url" = false := by
    rw [safe_pop_media, Doc.hasKey_dropKeys_not_mem d _ _ (by decide)]
    exact hiu
  have hpu2 : (safe_pop_media d).hasKey "pdf_url" = false := by
    rw [safe_pop_media, Doc.hasKey_dropKeys_not_mem d _ _ (by decide)]
    exact hpu
  have hau2 : (safe_pop_media d).hasKey "audio_url" = false := by
    rw [safe_pop_media, Doc.hasKey_dropKeys_not_mem d _ _ (by decide)]
    exact hau
  have hif : (safe_pop_media d).hasKey "image_filename" = d.hasKey "image_filename" := by
    rw [safe_pop_media, Doc.hasKey_dropKeys_not_mem d _ _ (by decide)]
  have hpf : (safe_pop_media d).hasKey "pdf_filename" = d.hasKey "pdf_filename" := by
    rw [safe_pop_media, Doc.hasKey_dropKeys_not_mem d _ _ (by decide)]
  have haf : (safe_pop_media d).hasKey "audio_filename" = d.hasKey "audio_filename" := by
    rw [safe_pop_media, Doc.hasKey_dropKeys_not_mem d _ _ (by decide)]
  obtain ⟨⟨hi1, hi2⟩, ⟨hp1, hp2⟩, ⟨ha1, ha2⟩⟩ :=
    attach_file_urls_spec oid (safe_pop_media d) hiu2 hpu2 hau2
  refine ⟨attach_file_urls oid (safe_pop_media d), hok,
    by rw [hi1, hif], ?_, by rw [hp1, hpf], ?_, by rw [ha1, haf], ?_, ?_, ?_⟩
  · intro h
    exact hi2 (by rw [hif]; exact h)
  · intro h
    exact hp2 (by rw [hpf]; exact h)
  · intro h
    exact ha2 (by rw [haf]; exact h)
  · intro f cat hd
    have h1 : d.hasKey "image_filename" = true := by
      rw [hd]; simp [mantraDoc, Doc.hasKey]
    have h2 : d.hasKey "pdf_filename" = true := by
      rw [hd]; simp [mantraDoc, Doc.hasKey]
    have h3 : d.hasKey "audio_filename" = true := by
      rw [hd]; simp [mantraDoc, Doc.hasKey]
    exact ⟨by rw [hi1, hif, h1], by rw [hp1, hpf, h2], by rw [ha1, haf, h3]⟩
  · intro v hv
    unfold list_mantras at hv
    obtain ⟨p, hp, hpv⟩ := List.mem_map.mp hv
    exact ⟨p, (mem_sortDesc p s.mantras).mp hp, hpv.symm⟩

/-- Witness for C2 on the store holding one no-audio mantra. -/
theorem C2_derived_urls_witness :
    (parseOid (oidStr 0) = some 0
      ∧ findMantra ⟨[(0, mantraDoc formUrls "LAKSHMI")], [], 1⟩ 0 =
          some (mantraDoc formUrls "LAKSHMI")
      ∧ (mantraDoc formUrls "LAKSHMI").hasKey "image_url" = false
      ∧ (mantraDoc formUrls "LAKSHMI").hasKey "pdf_url" = false
      ∧ (mantraDoc formUrls "LAKSHMI").hasKey "audio_url" = false)
    ∧ (∃ r : Doc,
        get_mantra ⟨[(0, mantraDoc formUrls "LAKSHMI")], [], 1⟩ (oidStr 0) = .ok r
        ∧ (r.hasKey "image_url" = (mantraDoc formUrls "LAKSHMI").hasKey "image_filename")
        ∧ ((mantraDoc formUrls "LAKSHMI").hasKey "image_filename" = true →
            r.get "image_url" = some (vstr ("/mantras/" ++ oidStr 0 ++ "/image")))
        ∧ (r.hasKey "pdf_url" = (mantraDoc formUrls "LAKSHMI").hasKey "pdf_filename")
        ∧ ((mantraDoc formUrls "LAKSHMI").hasKey "pdf_filename" = true →
            r.get "pdf_url" = some (vstr ("/mantras/" ++ oidStr 0 ++ "/pdf")))
        ∧ (r.hasKey "audio_url" = (mantraDoc formUrls "LAKSHMI").hasKey "audio_filename")
        ∧ ((mantraDoc formUrls "LAKSHMI").hasKey "audio_filename" = true →
            r.get "audio_url" = some (vstr ("/mantras/" ++ oidStr 0 ++ "/audio")))
        ∧ (∀ (f : UploadForm) (cat : String),
            mantraDoc formUrls "LAKSHMI" = mantraDoc f cat →
            r.hasKey "image_url" = true ∧ r.hasKey "pdf_url" = true
              ∧ r.hasKey "audio_url" = true)
        ∧ (∀ v : Doc, v ∈ list_mantras ⟨[(0, mantraDoc formUrls "LAKSHMI")], [], 1⟩ →
            ∃ p : Nat × Doc, p ∈ ([(0, mantraDoc formUrls "LAKSHMI")] : List (Nat × Doc))
              ∧ v = attach_file_urls p.1 (safe_pop_media p.2))) :=
  ⟨⟨by decide, by decide, by decide, by decide, by decide⟩,
    C2_derived_urls ⟨[(0, mantraDoc formUrls "LAKSHMI")], [], 1⟩ (oidStr 0) 0
      (mantraDoc formUrls "LAKSHMI") (by decide) (by decide)
      (by decide) (by decide) (by decide)⟩

/-- C3: editing a mantra leaves every attachment slot omitted from the
edit request untouched — binary bytes, filename and content type all keep
their previous stored values — and a slot supplied in the request is
overwritten with the new file's data. -/
theorem C3_edit_frame (s : Store) (mantra_id : String) (oid : Nat)
    (f : EditForm) (d : Doc) (s2 : Store) (r : Doc)
    (hid : parseOid mantra_id = some oid)
    (hfind : findMantra s oid = some d)
    (hedit : edit_mantra s mantra_id f = .ok (s2, r)) :
    ∃ (cat : String) (d2 : Doc),
      normalize_category f.category = .ok cat
      ∧ findMantra s2 oid = some d2
      ∧ d2 = d.setMany (editFields f cat)
      ∧ (f.image = none → d2.get "image" = d.get "image"
          ∧ d2.get "image_filename" = d.get "image_filename"
          ∧ d2.get "image_content_type" = d.get "image_content_type")
      ∧ (f.pdf = none → d2.get "pdf" = d.get "pdf"
          ∧ d2.get "pdf_filename" = d.get "pdf_filename"
          ∧ d2.get "pdf_content_type" = d.get "pdf_content_type")
      ∧ (f.audio = none → d2.get "audio" = d.get "audio"
          ∧ d2.get "audio_filename" = d.get "audio_filename"
          ∧ d2.get "audio_content_type" = d.get "audio_content_type")
      ∧ (∀ u : UploadFile, f.image = some u →
          d2.get "image" = some (vbin u.data)
          ∧ d2.get "image_filename" = some (optStr u.filename)
          ∧ d2.get "image_content_type" =
              some (vstr (pyOr u.content_type "image/jpeg")))
      ∧ (∀ u : UploadFile, f.pdf = some u →
          d2.get "pdf" = some (vbin u.data)
          ∧ d2.get "pdf_filename" = some (optStr u.filename)
          ∧ d2.get "pdf_content_type" =
              some (vstr (pyOr u.content_type "application/pdf")))
      ∧ (∀ u : UploadFile, f.audio = some u →
          d2.get "audio" = some (vbin u.data)
          ∧ d2.get "audio_filename" = some (optStr u.filename)
          ∧ d2.get "audio_content_type" =
              some (vstr (pyOr u.content_type "audio/mpeg"))) := by
  unfold edit_mantra at hedit
  rw [hid] at hedit
  revert hedit
  cases hcat : normalize_category f.category with
  | error e =>
    intro hedit
    exact absurd hedit (by simp)
  | ok cat =>
    intro hedit
    simp only [hfind, Except.ok.injEq, Prod.mk.injEq] at hedit
    obtain ⟨hs2, hr⟩ := hedit
    have hsome : ((s.mantras.find? (fun p => p.1 = oid))).isSome := by
      unfold findMantra at hfind
      cases hx : s.mantras.find? (fun p => p.1 = oid)
      · rw [hx] at hfind; simp at hfind
      · simp
    have hfind2 : findMantra s2 oid = some (d.setMany (editFields f cat)) := by
      rw [← hs2]
      unfold findMantra
      exact find_map_replace s.mantras oid (d.setMany (editFields f cat)) hsome
    refine ⟨cat, d.setMany (editFields f cat), ?_, hfind2, rfl,
      ?_, ?_, ?_, ?_, ?_, ?_⟩
    · exact rfl
    · intro h
      cases hp : f.pdf <;> cases ha : f.audio <;>
        refine ⟨?_, ?_, ?_⟩ <;>
        simp [editFields, Doc.setMany, h, hp, ha,
          Doc.get_set_other, Doc.get_set_self]
    · intro h
      cases hi : f.image <;> cases ha : f.audio <;>
        refine ⟨?_, ?_, ?_⟩ <;>
        simp [editFields, Doc.setMany, h, hi, ha,
          Doc.get_set_other, Doc.get_set_self]
    · intro h
      cases hi : f.image <;> cases hp : f.pdf <;>
        refine ⟨?_, ?_, ?_⟩ <;>
        simp [editFields, Doc.setMany, h, hi, hp,
          Doc.get_set_other, Doc.get_set_self]
    · intro u h
      cases hp : f.pdf <;> cases ha : f.audio <;>
        refine ⟨?_, ?_, ?_⟩ <;>
        simp [editFields, Doc.setMany, h, hp, ha,
          Doc.get_set_other, Doc.get_set_self]
    · intro u h
      cases hi : f.image <;> cases ha : f.audio <;>
        refine ⟨?_, ?_, ?_⟩ <;>
        simp [editFields, Doc.setMany, h, hi, ha,
          Doc.get_set_other, Doc.get_set_self]
    · intro u h
      cases hi : f.image <;> cases hp : f.pdf <;>
        refine ⟨?_, ?_, ?_⟩ <;>
        simp [editFields, Doc.setMany, h, hi, hp,
          Doc.get_set_other, Doc.get_set_self]

/-- Witness for C3: a concrete edit replacing only the image leaves the
pdf and audio slot fields of the stored record unchanged. -/
theorem C3_edit_frame_witness :
    (parseOid (oidStr 0) = some 0
      ∧ findMantra ⟨[(0, mantraDoc formNoAudio "KALI")], [], 1⟩ 0 =
          some (mantraDoc formNoAudio "KALI")
      ∧ edit_mantra ⟨[(0, mantraDoc formNoAudio "KALI")], [], 1⟩ (oidStr 0)
          ⟨"New Name", "Tamil", "", "kali",
            some ⟨some "new.jpg", some "image/jpeg", [9]⟩, none, none⟩ =
        .ok (⟨[(0, (mantraDoc formNoAudio "KALI").setMany
                (editFields ⟨"New Name", "Tamil", "", "kali",
                  some ⟨some "new.jpg", some "image/jpeg", [9]⟩, none, none⟩
                  "KALI"))], [], 1⟩,
          attach_file_urls 0 (safe_pop_media
            ((mantraDoc formNoAudio "KALI").setMany
              (editFields ⟨"New Name", "Tamil", "", "kali",
                some ⟨some "new.jpg", some "image/jpeg", [9]⟩, none, none⟩
                "KALI")))))
    ∧ (∃ (cat : String) (d2 : Doc),
        normalize_category "kali" = .ok cat
        ∧ findMantra ⟨[(0, (mantraDoc formNoAudio "KALI").setMany
            (editFields ⟨"New Name", "Tamil", "", "kali",
              some ⟨some "new.jpg", some "image/jpeg", [9]⟩, none, none⟩
              "KALI"))], [], 1⟩ 0 = some d2
        ∧ d2 = (mantraDoc formNoAudio "KALI").setMany
            (editFields ⟨"New Name", "Tamil", "", "kali",
              some ⟨some "new.jpg", some "image/jpeg", [9]⟩, none, none⟩ cat)
        ∧ ((some ⟨some "new.jpg", some "image/jpeg", [9]⟩ : Option UploadFile) = none →
            d2.get "image" = (mantraDoc formNoAudio "KALI").get "image"
            ∧ d2.get "image_filename" =
                (mantraDoc formNoAudio "KALI").get "image_filename"
            ∧ d2.get "image_content_type" =
                (mantraDoc formNoAudio "KALI").get "image_content_type")
        ∧ ((none : Option UploadFile) = none →
            d2.get "pdf" = (mantraDoc formNoAudio "KALI").get "pdf"
            ∧ d2.get "pdf_filename" =
                (mantraDoc formNoAudio "KALI").get "pdf_filename"
            ∧ d2.get "pdf_content_type" =
                (mantraDoc formNoAudio "KALI").get "pdf_content_type")
        ∧ ((none : Option UploadFile) = none →
            d2.get "audio" = (mantraDoc formNoAudio "KALI").get "audio"
            ∧ d2.get "audio_filename" =
                (mantraDoc formNoAudio "KALI").get "audio_filename"
            ∧ d2.get "audio_content_type" =
                (mantraDoc formNoAudio "KALI").get "audio_content_type")
        ∧ (∀ u : UploadFile,
            (some ⟨some "new.jpg", some "image/jpeg", [9]⟩ : Option UploadFile) = some u →
            d2.get "image" = some (vbin u.data)
            ∧ d2.get "image_filename" = some (optStr u.filename)
            ∧ d2.get "image_content_type" =
                some (vstr (pyOr u.content_type "image/jpeg")))
        ∧ (∀ u : UploadFile, (none : Option UploadFile) = some u →
            d2.get "pdf" = some (vbin u.data)
            ∧ d2.get "pdf_filename" = some (optStr u.filename)
            ∧ d2.get "pdf_content_type" =
                some (vstr (pyOr u.content_type "application/pdf")))
        ∧ (∀ u : UploadFile, (none : Option UploadFile) = some u →
            d2.get "audio" = some (vbin u.data)
            ∧ d2.get "audio_filename" = some (optStr u.filename)
            ∧ d2.get "audio_content_type" =
                some (vstr (pyOr u.content_type "audio/mpeg")))) := by
  refine ⟨⟨by decide, by decide, by decide⟩, ?_⟩
  simpa using C3_edit_frame ⟨[(0, mantraDoc formNoAudio "KALI")], [], 1⟩ (oidStr 0) 0
    ⟨"New Name", "Tamil", "", "kali",
      some ⟨some "new.jpg", some "image/jpeg", [9]⟩, none, none⟩
    (mantraDoc formNoAudio "KALI")
    ⟨[(0, (mantraDoc formNoAudio "KALI").setMany
        (editFields ⟨"New Name", "Tamil", "", "kali",
          some ⟨some "new.jpg", some "image/jpeg", [9]⟩, none, none⟩
          "KALI"))], [], 1⟩
    (attach_file_urls 0 (safe_pop_media
      ((mantraDoc formNoAudio "KALI").setMany
        (editFields ⟨"New Name", "Tamil", "", "kali",
          some ⟨some "new.jpg", some "image/jpeg", [9]⟩, none, none⟩
          "KALI"))))
    (by decide) (by decide) (by decide)

/-- C4: for each attachment fetch endpoint, a malformed id string fails
with `InvalidInput` (400) for every store state (so before and regardless
of any store access), a well-formed id whose record is missing — in
particular one just deleted — or whose slot is empty fails with
`NotFound` (404), and otherwise the stored raw bytes are returned with
the stored content type (`doc.get(ct_key, fallback)`). -/
theorem C4_attachment_fetch :
    (∀ (s : Store) (mantra_id : String), parseOid mantra_id = none →
      get_mantra_image s mantra_id = .error ⟨400, "Invalid ID"⟩
      ∧ get_mantra_pdf s mantra_id = .error ⟨400, "Invalid ID"⟩
      ∧ get_mantra_audio s mantra_id = .error ⟨400, "Invalid ID"⟩)
    ∧ (∀ (s : Store) (mantra_id : String) (oid : Nat),
        parseOid mantra_id = some oid → findMantra s oid = none →
        get_mantra_image s mantra_id = .error ⟨404, "Image not found"⟩
        ∧ get_mantra_pdf s mantra_id = .error ⟨404, "PDF not found"⟩
        ∧ get_mantra_audio s mantra_id = .error ⟨404, "Audio not found"⟩)
    ∧ (∀ (s : Store) (mantra_id : String) (oid : Nat) (d : Doc),
        parseOid mantra_id = some oid → findMantra s oid = some d →
        (d.truthy "image" = false →
          get_mantra_image s mantra_id = .error ⟨404, "Image not found"⟩)
        ∧ (d.truthy "pdf" = false →
          get_mantra_pdf s mantra_id = .error ⟨404, "PDF not found"⟩)
        ∧ (d.truthy "audio" = false →
          get_mantra_audio s mantra_id = .error ⟨404, "Audio not found"⟩))
    ∧ (∀ (s : Store) (mantra_id : String) (s2 : Store),
        delete_mantra s mantra_id = .ok s2 →
        get_mantra_image s2 mantra_id = .error ⟨404, "Image not found"⟩
        ∧ get_mantra_pdf s2 mantra_id = .error ⟨404, "PDF not found"⟩
        ∧ get_mantra_audio s2 mantra_id = .error ⟨404, "Audio not found"⟩)
    ∧ (∀ (s : Store) (mantra_id : String) (oid : Nat) (d : Doc) (b : List Nat),
        parseOid mantra_id = some oid → findMantra s oid = some d →
        (d.get "image" = some (vbin b) → b ≠ [] →
          get_mantra_image s mantra_id =
            .ok (b, d.getD "image_content_type" (vstr "image/jpeg")))
        ∧ (d.get "pdf" = some (vbin b) → b ≠ [] →
          get_mantra_pdf s mantra_id =
            .ok (b, d.getD "pdf_content_type" (vstr "application/pdf")))
        ∧ (d.get "audio" = some (vbin b) → b ≠ [] →
          get_mantra_audio s mantra_id =
            .ok (b, d.getD "audio_content_type" (vstr "audio/mpeg")))) := by
  refine ⟨?_, ?_, ?_, ?_, ?_⟩
  · intro s mid h
    refine ⟨?_, ?_, ?_⟩ <;>
      simp [get_mantra_image, get_mantra_pdf, get_mantra_audio, h]
  · intro s mid oid h hf
    refine ⟨?_, ?_, ?_⟩ <;>
      simp [get_mantra_image, get_mantra_pdf, get_mantra_audio, h, hf]
  · intro s mid oid d h hf
    refine ⟨?_, ?_, ?_⟩ <;> intro ht <;>
      simp [get_mantra_image, get_mantra_pdf, get_mantra_audio, h, hf, ht]
  · intro s mid s2 hdel
    unfold delete_mantra at hdel
    revert hdel
    cases hpid : parseOid mid with
    | none => intro hdel; exact absurd hdel (by simp)
    | some oid =>
      intro hdel
      cases hfm : findMantra s oid with
      | none => simp [hfm] at hdel
      | some d0 =>
        simp only [hfm, Except.ok.injEq] at hdel
        have hnone : findMantra s2 oid = none := by
          rw [← hdel]
          unfold findMantra
          rw [Option.map_eq_none']
          rw [List.find?_eq_none]
          intro p hp
          have hmem := List.of_mem_filter hp
          simpa using hmem
        refine ⟨?_, ?_, ?_⟩ <;>
          simp [get_mantra_image, get_mantra_pdf, get_mantra_audio, hpid, hnone]
  · intro s mid oid d b h hf
    refine ⟨?_, ?_, ?_⟩ <;> intro hg hb
    · have ht : d.truthy "image" = true := by
        simp [Doc.truthy, hg, BVal.truthy, hb]
      simp [get_mantra_image, h, hf, ht, binBytes, Doc.getD, hg]
    · have ht : d.truthy "pdf" = true := by
        simp [Doc.truthy, hg, BVal.truthy, hb]
      simp [get_mantra_pdf, h, hf, ht, binBytes, Doc.getD, hg]
    · have ht : d.truthy "audio" = true := by
        simp [Doc.truthy, hg, BVal.truthy, hb]
      simp [get_mantra_audio, h, hf, ht, binBytes, Doc.getD, hg]

/-- Witness for C4 at concrete fetches: malformed id, missing record,
deleted record, and a successful image fetch. -/
theorem C4_attachment_fetch_witness :
    (parseOid "zzz" = none
      ∧ (get_mantra_image exStore "zzz" = .error ⟨400, "Invalid ID"⟩
        ∧ get_mantra_pdf exStore "zzz" = .error ⟨400, "Invalid ID"⟩
        ∧ get_mantra_audio exStore "zzz" = .error ⟨400, "Invalid ID"⟩))
    ∧ (parseOid (oidStr 7) = some 7 ∧ findMantra exStore 7 = none
      ∧ (get_mantra_image exStore (oidStr 7) = .error ⟨404, "Image not found"⟩
        ∧ get_mantra_pdf exStore (oidStr 7) = .error ⟨404, "PDF not found"⟩
        ∧ get_mantra_audio exStore (oidStr 7) = .error ⟨404, "Audio not found"⟩))
    ∧ (delete_mantra ⟨[(0, mantraDoc formNoAudio "KALI")], [], 1⟩ (oidStr 0) =
        .ok ⟨[], [], 1⟩
      ∧ (get_mantra_image (⟨[], [], 1⟩ : Store) (oidStr 0) =
          .error ⟨404, "Image not found"⟩
        ∧ get_mantra_pdf (⟨[], [], 1⟩ : Store) (oidStr 0) =
            .error ⟨404, "PDF not found"⟩
        ∧ get_mantra_audio (⟨[], [], 1⟩ : Store) (oidStr 0) =
            .error ⟨404, "Audio not found"⟩))
    ∧ ((mantraDoc formNoAudio "KALI").get "image" = some (vbin [10, 11])
      ∧ get_mantra_image ⟨[(0, mantraDoc formNoAudio "KALI")], [], 1⟩ (oidStr 0) =
          .ok ([10, 11],
            (mantraDoc formNoAudio "KALI").getD "image_content_type"
              (vstr "image/jpeg"))) :=
  ⟨⟨by decide, C4_attachment_fetch.1 exStore "zzz" (by decide)⟩,
   ⟨by decide, by decide,
     C4_attachment_fetch.2.1 exStore (oidStr 7) 7 (by decide) (by decide)⟩,
   ⟨by decide,
     C4_attachment_fetch.2.2.2.1 ⟨[(0, mantraDoc formNoAudio "KALI")], [], 1⟩
       (oidStr 0) ⟨[], [], 1⟩ (by decide)⟩,
   ⟨by decide,
     (C4_attachment_fetch.2.2.2.2 ⟨[(0, mantraDoc formNoAudio "KALI")], [], 1⟩
       (oidStr 0) 0 (mantraDoc formNoAudio "KALI") [10, 11]
       (by decide) (by decide)).1 (by decide) (by decide)⟩⟩

/-- C7 counterexample: the contact upsert persists ALL five fields,
empty strings included — after storing `email="x@y.com"`, `phone="9"`, a
second write with every field blank erases both: the subsequent read
returns empty email and empty phone, contradicting the claim that blank
input can never erase a stored value. -/
theorem C7_counterexample :
    ((upsert_contact none contactWrite1).toOption.map
      (fun st1 => ((get_contact st1).get "email", (get_contact st1).get "phone")))
      = some (some (vstr "x@y.com"), some (vstr "9"))
    ∧ ((upsert_contact none contactWrite1).toOption.bind
        (fun st1 => (upsert_contact st1 contactWrite2).toOption.map
          (fun st2 => ((get_contact st2).get "email", (get_contact st2).get "phone"))))
      = some (some (vstr ""), some (vstr "")) := by
  decide

/-- C7 amended: a contact write `$set`s all five fields to their stripped
inputs unconditionally (plus the fixed singleton id); nothing is dropped,
so blank input overwrites previously stored non-empty values, and a
subsequent read returns exactly the written fields. -/
theorem C7_contact_write_overwrites (st : Option Doc) (f : ContactForm)
    (hmail : f.email = "" ∨ f.email.data.contains '@' = true) :
    ∃ d : Doc, upsert_contact st f = .ok (some d)
      ∧ d.get "phone" = some (vstr (pyStrip f.phone))
      ∧ d.get "email" = some (vstr (pyStrip f.email))
      ∧ d.get "location" = some (vstr (pyStrip f.location))
      ∧ d.get "map_embed" = some (vstr (pyStrip f.map_embed))
      ∧ d.get "hero_image_url" = some (vstr (pyStrip f.hero_image_url))
      ∧ d.get "_id" = some (vstr CONTACT_ID)
      ∧ get_contact (some d) = d := by
  have hguard : (f.email ≠ "" && !f.email.data.contains '@') = false := by
    rcases hmail with h | h
    · simp [h]
    · simp only [Bool.and_eq_false_iff]
      right
      simpa using h
  cases st with
  | none =>
    refine ⟨Doc.setMany [] (contactPayload f), ?_, ?_⟩
    · unfold upsert_contact
      rw [hguard]
      simp
    · refine ⟨?_, ?_, ?_, ?_, ?_, ?_, rfl⟩ <;>
        simp [Doc.setMany, contactPayload, Doc.set, Doc.get, List.find?]
  | some d0 =>
    refine ⟨d0.setMany (contactPayload f), ?_, ?_⟩
    · unfold upsert_contact
      rw [hguard]
      simp
    · refine ⟨?_, ?_, ?_, ?_, ?_, ?_, rfl⟩ <;>
        rw [Doc.get_setMany] <;>
        simp [lastVal, contactPayload, List.find?]

/-- Witness for C7 at the first concrete contact write. -/
theorem C7_contact_write_overwrites_witness :
    (contactWrite1.email = "" ∨ contactWrite1.email.data.contains '@' = true)
    ∧ (∃ d : Doc, upsert_contact none contactWrite1 = .ok (some d)
      ∧ d.get "phone" = some (vstr (pyStrip contactWrite1.phone))
      ∧ d.get "email" = some (vstr (pyStrip contactWrite1.email))
      ∧ d.get "location" = some (vstr (pyStrip contactWrite1.location))
      ∧ d.get "map_embed" = some (vstr (pyStrip contactWrite1.map_embed))
      ∧ d.get "hero_image_url" = some (vstr (pyStrip contactWrite1.hero_image_url))
      ∧ d.get "_id" = some (vstr CONTACT_ID)
      ∧ get_contact (some d) = d) :=
  ⟨Or.inr (by decide),
    C7_contact_write_overwrites none contactWrite1 (Or.inr (by decide))⟩

theorem eventDoc_hasKey_status (f : EventForm) :
    (eventDoc f).hasKey "status" = false := by
  cases hi : f.image <;> cases hp : f.pdf <;>
    simp [eventDoc, Doc.hasKey, hi, hp]

theorem eventDoc_truthy_description (f : EventForm) :
    (eventDoc f).truthy "description" = decide (pyStrip f.description ≠ "") := by
  cases hi : f.image <;> cases hp : f.pdf <;>
    simp [eventDoc, Doc.truthy, Doc.get, List.find?, hi, hp, BVal.truthy]

theorem eventDoc_truthy_image_none (f : EventForm) (h : f.image = none) :
    (eventDoc f).truthy "image_filename" = false := by
  cases hp : f.pdf <;>
    simp [eventDoc, Doc.truthy, Doc.get, List.find?, h, hp]

theorem eventDoc_truthy_image_some (f : EventForm) (u : UploadFile)
    (fn : String) (h : f.image = some u) (hfn : u.filename = some fn) :
    (eventDoc f).truthy "image_filename" = decide (fn ≠ "") := by
  cases hp : f.pdf <;>
    simp [eventDoc, Doc.truthy, Doc.get, List.find?, h, hp, hfn, optStr,
      BVal.truthy]

theorem eventDoc_truthy_pdf_none (f : EventForm) (h : f.pdf = none) :
    (eventDoc f).truthy "pdf_filename" = false := by
  cases hi : f.image <;>
    simp [eventDoc, Doc.truthy, Doc.get, List.find?, h, hi]

theorem eventDoc_truthy_pdf_some (f : EventForm) (u : UploadFile)
    (fn : String) (h : f.pdf = some u) (hfn : u.filename = some fn) :
    (eventDoc f).truthy "pdf_filename" = decide (fn ≠ "") := by
  cases hi : f.image <;>
    simp [eventDoc, Doc.truthy, Doc.get, List.find?, h, hi, hfn, optStr,
      BVal.truthy]

/-- C8 counterexample: an event created with an image whose multipart
filename is empty stores the image bytes, yet the listing still annotates
it with the `"Upcoming Event"` marker (the view tests the filename, not
the attachment) — so an event with an attachment present can carry the
marker. -/
theorem C8_counterexample :
    create_event exStore formEmptyFilenameEvent =
      .ok (⟨[], [(0, eventDoc formEmptyFilenameEvent)], 1⟩, 0)
    ∧ (eventDoc formEmptyFilenameEvent).truthy "image" = true
    ∧ (list_events ⟨[], [(0, eventDoc formEmptyFilenameEvent)], 1⟩).map
        (fun v => v.get "status") = [some (vstr "Upcoming Event")] := by
  decide

/-- C8 amended: the listing marker is a pure view-time computation —
never stored — and is present exactly when the stored description, image
filename and pdf filename are ALL falsy; for events whose supplied
attachments carry non-empty filenames this coincides with the claim
(marker iff description empty and no image and no pdf), but an attachment
stored under an empty or missing filename still receives the marker. -/
theorem C8_upcoming_marker :
    (∀ (oid : Nat) (d : Doc), d.hasKey "status" = false →
      (((eventView oid (d.dropKeys ["image", "pdf"])).get "status" =
          some (vstr "Upcoming Event")) ↔
        (d.truthy "description" = false ∧ d.truthy "image_filename" = false
          ∧ d.truthy "pdf_filename" = false)))
    ∧ (∀ f : EventForm, (eventDoc f).hasKey "status" = false)
    ∧ (∀ (s : Store) (v : Doc), v ∈ list_events s →
        ∃ p : Nat × Doc, p ∈ s.events
          ∧ v = eventView p.1 (p.2.dropKeys ["image", "pdf"]))
    ∧ (∀ (s : Store) (f : EventForm) (s2 : Store) (n : Nat),
        create_event s f = .ok (s2, n) →
        namedAttachment f.image → namedAttachment f.pdf →
        ((eventView n ((eventDoc f).dropKeys ["image", "pdf"])).hasKey "status"
            = true ↔
          (pyStrip f.description = "" ∧ f.image = none ∧ f.pdf = none))) := by
  have htransfer : ∀ d : Doc,
      (d.dropKeys ["image", "pdf"]).truthy "description" = d.truthy "description"
      ∧ (d.dropKeys ["image", "pdf"]).truthy "image_filename" =
          d.truthy "image_filename"
      ∧ (d.dropKeys ["image", "pdf"]).truthy "pdf_filename" =
          d.truthy "pdf_filename"
      ∧ (d.hasKey "status" = false →
          (d.dropKeys ["image", "pdf"]).hasKey "status" = false) := by
    intro d
    refine ⟨Doc.truthy_dropKeys_not_mem d _ _ (by decide),
      Doc.truthy_dropKeys_not_mem d _ _ (by decide),
      Doc.truthy_dropKeys_not_mem d _ _ (by decide), ?_⟩
    intro h
    rw [Doc.hasKey_dropKeys_not_mem d _ _ (by decide)]
    exact h
  refine ⟨?_, eventDoc_hasKey_status, ?_, ?_⟩
  · intro oid d hs
    obtain ⟨ht1, ht2, ht3, ht4⟩ := htransfer d
    obtain ⟨hiff, _⟩ := eventView_status_spec oid (d.dropKeys ["image", "pdf"])
      (ht4 hs)
    rw [hiff, ht1, ht2, ht3]
  · intro s v hv
    unfold list_events at hv
    obtain ⟨p, hp, hpv⟩ := List.mem_map.mp hv
    exact ⟨p, (mem_sortDesc p s.events).mp hp, hpv.symm⟩
  · intro s f s2 n hok hni hnp
    obtain ⟨ht1, ht2, ht3, ht4⟩ := htransfer (eventDoc f)
    obtain ⟨_, hiff⟩ := eventView_status_spec n
      ((eventDoc f).dropKeys ["image", "pdf"]) (ht4 (eventDoc_hasKey_status f))
    rw [hiff, ht1, ht2, ht3]
    constructor
    · rintro ⟨h1, h2, h3⟩
      refine ⟨?_, ?_, ?_⟩
      · have := eventDoc_truthy_description f
        rw [h1] at this
        by_cases hd : pyStrip f.description = ""
        · exact hd
        · rw [eq_comm] at this
          simp [hd] at this
      · cases hi : f.image with
        | none => rfl
        | some u =>
          obtain ⟨fn, hfn, hfne⟩ := hni u hi
          have := eventDoc_truthy_image_some f u fn hi hfn
          rw [h2] at this
          rw [eq_comm] at this
          simp [hfne] at this
      · cases hp : f.pdf with
        | none => rfl
        | some u =>
          obtain ⟨fn, hfn, hfne⟩ := hnp u hp
          have := eventDoc_truthy_pdf_some f u fn hp hfn
          rw [h3] at this
          rw [eq_comm] at this
          simp [hfne] at this
    · rintro ⟨h1, h2, h3⟩
      refine ⟨?_, eventDoc_truthy_image_none f h2, eventDoc_truthy_pdf_none f h3⟩
      rw [eventDoc_truthy_description f]
      simp [h1]

/-- Witness for C8: a concrete attachment-free, description-free event is
created, never stores a marker, and its listing view satisfies the
marker rule. -/
theorem C8_upcoming_marker_witness :
    ((eventDoc (⟨"Pooja", "", none, none⟩ : EventForm)).hasKey "status" = false
      ∧ create_event exStore ⟨"Pooja", "", none, none⟩ =
          .ok (⟨[], [(0, eventDoc ⟨"Pooja", "", none, none⟩)], 1⟩, 0))
    ∧ ((eventView 0 ((eventDoc (⟨"Pooja", "", none, none⟩ : EventForm)).dropKeys
          ["image", "pdf"])).hasKey "status" = true ↔
        (pyStrip "" = "" ∧ (none : Option UploadFile) = none
          ∧ (none : Option UploadFile) = none)) := by
  refine ⟨⟨by decide, by decide⟩, ?_⟩
  simpa using C8_upcoming_marker.2.2.2 exStore ⟨"Pooja", "", none, none⟩
    ⟨[], [(0, eventDoc ⟨"Pooja", "", none, none⟩)], 1⟩ 0 (by decide)
    (fun u h => nomatch h) (fun u h => nomatch h)

/-- C10: both listings return the entire collection (the sort is a
permutation) sorted by descending record id; ids are assigned from a
strictly increasing counter, so a freshly inserted record's id exceeds
every id already stored — descending id order is most-recent-first. -/
theorem C10_listing_order :
    (∀ s : Store, idsSortedDesc (sortDesc s.mantras)
      ∧ idsSortedDesc (sortDesc s.events))
    ∧ (∀ s : Store,
        list_mantras s = (sortDesc s.mantras).map
          (fun p => attach_file_urls p.1 (safe_pop_media p.2))
        ∧ list_events s = (sortDesc s.events).map
            (fun p => eventView p.1 (p.2.dropKeys ["image", "pdf"])))
    ∧ (∀ s : Store, List.Perm (sortDesc s.mantras) s.mantras
        ∧ List.Perm (sortDesc s.events) s.events)
    ∧ (∀ (s : Store) (f : UploadForm) (r : Store × Nat), Store.wf s →
        upload_mantra s f = .ok r → ∀ p ∈ s.mantras, p.1 < r.2)
    ∧ (∀ (s : Store) (f : EventForm) (r : Store × Nat), Store.wf s →
        create_event s f = .ok r → ∀ p ∈ s.events, p.1 < r.2) := by
  refine ⟨?_, ?_, ?_, ?_, ?_⟩
  · intro s
    exact ⟨sorted_sortDesc s.mantras, sorted_sortDesc s.events⟩
  · intro s
    exact ⟨rfl, rfl⟩
  · intro s
    exact ⟨perm_sortDesc s.mantras, perm_sortDesc s.events⟩
  · intro s f r hwf hok p hp
    unfold upload_mantra at hok
    revert hok
    cases hcat : normalize_category f.category with
    | error e => intro hok; exact absurd hok (by simp)
    | ok cat =>
      intro hok
      simp only [Except.ok.injEq] at hok
      have : r.2 = s.nextId := by rw [← hok]
      rw [this]
      exact hwf.1 p hp
  · intro s f r hwf hok p hp
    unfold create_event at hok
    revert hok
    by_cases hname : pyStrip f.name = ""
    · intro hok
      rw [if_pos hname] at hok
      exact absurd hok (by simp)
    · intro hok
      rw [if_neg hname] at hok
      simp only [Except.ok.injEq] at hok
      have : r.2 = s.nextId := by rw [← hok]
      rw [this]
      exact hwf.2 p hp

/-- Witness for C10 on a concrete two-record store and a fresh upload. -/
theorem C10_listing_order_witness :
    (Store.wf ⟨[(0, []), (1, [])], [(0, [])], 2⟩
      ∧ upload_mantra ⟨[(0, []), (1, [])], [(0, [])], 2⟩ formNoAudio =
          .ok (⟨[(0, []), (1, []), (2, mantraDoc formNoAudio "KALI")],
            [(0, [])], 3⟩, 2))
    ∧ idsSortedDesc (sortDesc (⟨[(0, []), (1, [])], [(0, [])], 2⟩ : Store).mantras)
    ∧ (∀ p ∈ (⟨[(0, []), (1, [])], [(0, [])], 2⟩ : Store).mantras,
        p.1 < 2) := by
  have hwf : Store.wf ⟨[(0, []), (1, [])], [(0, [])], 2⟩ := by
    unfold Store.wf
    constructor
    · intro p hp
      rcases List.mem_cons.mp hp with rfl | hp2
      · decide
      · rcases List.mem_cons.mp hp2 with rfl | hp3
        · decide
        · exact absurd hp3 (by simp)
    · intro p hp
      rcases List.mem_cons.mp hp with rfl | hp2
      · decide
      · exact absurd hp2 (by simp)
  refine ⟨⟨hwf, by decide⟩,
    (C10_listing_order.1 ⟨[(0, []), (1, [])], [(0, [])], 2⟩).1,
    C10_listing_order.2.2.2.1 ⟨[(0, []), (1, [])], [(0, [])], 2⟩ formNoAudio
      (⟨[(0, []), (1, []), (2, mantraDoc formNoAudio "KALI")], [(0, [])], 3⟩, 2)
      hwf (by decide)⟩
